import Mathlib

set_option autoImplicit false

/-!
Shallow embedding of `request_wrap.py` (ycmd's `RequestWrap`): a request-field
adapter exposing derived fields (current line, completion start position in
byte and codepoint form, query text, filetypes) over a raw request dict, with
per-view memoization and cross-field invalidation on overrides.

The leaf utilities imported by the source (`ByteOffsetToCodepointOffset`,
`CodepointOffsetToByteOffset`, `ToUnicode`, `ToBytes`, `SplitLines`,
`StartOfLongestIdentifierEndingAtIndex`) live in other files of the
repository; the embedding keeps them abstract as a `Helpers` record the model
is parameterized over, and the theorems quantify over every choice of
helpers. Concrete instances are supplied only to evaluate witnesses.
-/

namespace RequestWrapModel

/-- Python values as they occur in this module: text strings, integers, byte
strings, lists, string-keyed dicts and `None`. -/
inductive PyVal where
  | str (s : String)
  | int (n : Int)
  | bytes (bs : List Nat)
  | list (xs : List PyVal)
  | dict (entries : List (String × PyVal))
  | pynone

/-- Python exception classes raised on the code paths of this module.
`keyError` is Python's `KeyError` (the spec's `KeyNotFound`); `indexError`
is `IndexError` (the spec's `LineOutOfRange`); `valueError` is the
`ValueError` raised by `__setitem__` (the spec's `ReadOnlyFieldError`),
carrying the offending key; `typeError` stands for Python's `TypeError` on
an operand of the wrong type. `outOfFuel` is a modelling artifact: the
recursion-depth bound of the field interpreter, never reached at the bound
used because the derived-field dependency graph has depth at most five. -/
inductive PyErr where
  | keyError (k : String)
  | indexError
  | typeError
  | valueError (k : String)
  | outOfFuel

/-- Lookup in a string-keyed Python dict, modelled as an association list. -/
def dictFind? : List (String × PyVal) → String → Option PyVal
  | [], _ => none
  | (k1, v) :: rest, k => if k1 = k then some v else dictFind? rest k

/-- Python dict assignment `d[k] = v`: replace the entry if the key is
present, otherwise add it. -/
def dictSet : List (String × PyVal) → String → PyVal → List (String × PyVal)
  | [], k, v => [(k, v)]
  | (k1, v1) :: rest, k, v =>
    if k1 = k then (k, v) :: rest else (k1, v1) :: dictSet rest k v

/-- Python `d.pop(k, None)`: remove the entry for `k` if present. -/
def dictPop : List (String × PyVal) → String → List (String × PyVal)
  | [], _ => []
  | (k1, v) :: rest, k =>
    if k1 = k then dictPop rest k else (k1, v) :: dictPop rest k

/-- Python list indexing `xs[i]`: a negative index counts from the end of the
list; an index out of range (after that adjustment) raises `IndexError`. -/
def pyGetIdx {α : Type} (xs : List α) (i : Int) : Except PyErr α :=
  let j : Int := if i < 0 then i + (xs.length : Int) else i
  if j < 0 then .error .indexError
  else
    match xs.get? j.toNat with
    | some x => .ok x
    | none => .error .indexError

/-- One bound of a Python slice `s[a:b]` on a sequence of length `len`: a
negative bound counts from the end and clamps at 0; a nonnegative bound
clamps at `len`. -/
def pySliceBound (len : Nat) (i : Int) : Nat :=
  if i < 0 then (max 0 (i + (len : Int))).toNat else min i.toNat len

/-- Python string slice `s[a:b]` (codepoint indices, Python semantics:
negative bounds count from the end, the result is empty when the effective
lower bound is at or past the effective upper bound). -/
def pySlice (s : String) (a b : Int) : String :=
  let lo := pySliceBound s.length a
  let hi := pySliceBound s.length b
  String.mk ((s.data.take hi).drop lo)

/-- Python subscript `d[k]` for the shapes this module exercises: dict lookup
by string key (a missing key, or a key of a hashable non-string type against
a string-keyed dict, raises `KeyError`; an unhashable key raises
`TypeError`), list and byte-string indexing by integer, string indexing by
integer yielding a one-character string. -/
def pySubscript : PyVal → PyVal → Except PyErr PyVal
  | .dict m, .str k =>
    match dictFind? m k with
    | some v => .ok v
    | none => .error (.keyError k)
  | .dict _, .int _ => .error (.keyError "nonStringKey")
  | .dict _, .pynone => .error (.keyError "noneKey")
  | .dict _, _ => .error .typeError
  | .list xs, .int i => pyGetIdx xs i
  | .bytes bs, .int i =>
    match pyGetIdx bs i with
    | .ok b => .ok (.int b)
    | .error e => .error e
  | .str s, .int i =>
    match pyGetIdx s.data i with
    | .ok c => .ok (.str (String.mk [c]))
    | .error e => .error e
  | _, _ => .error .typeError

/-- The leaf utilities the source imports from `ycmd.utils` and
`ycmd.identifier_utils`, kept abstract: the model is parameterized over them
and the theorems hold for every choice. The offset converters take the text
argument exactly as the source passes it (a `str` or `bytes` value) and the
offset argument as the raw value handed over (the source passes
caller-supplied override values straight through). -/
structure Helpers where
  byteOffsetToCodepointOffset : PyVal → PyVal → Int
  codepointOffsetToByteOffset : PyVal → PyVal → Int
  toUnicode : PyVal → String
  toBytes : PyVal → List Nat
  splitLines : PyVal → List String
  startOfLongestIdentifierEndingAtIndex : String → Int → PyVal → Int

/-- The state of one `RequestWrap` view: the immutable raw request dict
(`self._request`), the memoization cache (`self._cached_computed`), and an
instrumentation log recording, in order, each derived-field getter
invocation (used only to state memoization properties; the source has no
such field and no code path reads it). -/
structure RequestWrap where
  request : List (String × PyVal)
  cachedComputed : List (String × PyVal)
  calls : List String

/-- `RequestWrap.__init__`: store the raw request and start with an empty
cache. (The optional structural validation `EnsureRequestValid` is external
to this module and out of scope.) -/
def RequestWrap.init (request : List (String × PyVal)) : RequestWrap :=
  { request := request, cachedComputed := [], calls := [] }

/-- The derived-field names registered in `self._computed_key`, in source
order. -/
def computedKeys : List String :=
  ["line_value", "start_codepoint", "column_codepoint", "line_bytes",
   "start_column", "query", "filetypes", "first_filetype"]

/-- Module-level `CompletionStartCodepoint( line_value, column_num,
filetype )`: convert the byte cursor column to a codepoint offset, ask the
identifier scanner for the 0-based start of the longest identifier ending at
the 0-based cursor index, and convert back to the 1-based convention. -/
def CompletionStartCodepoint (H : Helpers)
    (line_value column_num filetype : PyVal) : Int :=
  let codepoint_column_num := H.byteOffsetToCodepointOffset line_value column_num
  let unicode_line_value := H.toUnicode line_value
  H.startOfLongestIdentifierEndingAtIndex unicode_line_value
    (codepoint_column_num - 1) filetype + 1

/-- Module-level `CompletionStartColumn( line_value, column_num, filetype )`:
the byte-offset form of `CompletionStartCodepoint`. -/
def CompletionStartColumn (H : Helpers)
    (line_value column_num filetype : PyVal) : Int :=
  H.codepointOffsetToByteOffset (.str (H.toUnicode line_value))
    (.int (CompletionStartCodepoint H line_value column_num filetype))

/-- Getter `_CurrentLine`: read `filepath`, the file's `contents` in
`file_data` and `line_num` from the raw request, split the contents into
lines and index with `line_num - 1` (Python list indexing, so a negative
index counts from the end). -/
def currentLine (H : Helpers) (s : RequestWrap) :
    Except PyErr PyVal × RequestWrap :=
  match dictFind? s.request "filepath" with
  | none => (.error (.keyError "filepath"), s)
  | some current_file =>
    match dictFind? s.request "file_data" with
    | none => (.error (.keyError "file_data"), s)
    | some fd =>
      match pySubscript fd current_file with
      | .error e => (.error e, s)
      | .ok entry =>
        match pySubscript entry (.str "contents") with
        | .error e => (.error e, s)
        | .ok contents =>
          match dictFind? s.request "line_num" with
          | none => (.error (.keyError "line_num"), s)
          | some lineNum =>
            match lineNum with
            | .int n =>
              match pyGetIdx (H.splitLines contents) (n - 1) with
              | .ok line => (.ok (.str line), s)
              | .error e => (.error e, s)
            | _ => (.error .typeError, s)

/-- Getter lambda for `line_bytes`: `ToBytes( self[ 'line_value' ] )`. -/
def lineBytesG (H : Helpers)
    (self : RequestWrap → String → Except PyErr PyVal × RequestWrap)
    (s : RequestWrap) : Except PyErr PyVal × RequestWrap :=
  match self s "line_value" with
  | (.ok lv, s1) => (.ok (.bytes (H.toBytes lv)), s1)
  | (.error e, s1) => (.error e, s1)

/-- Getter lambda for `column_codepoint`:
`ByteOffsetToCodepointOffset( self[ 'line_bytes' ], self[ 'column_num' ] )`. -/
def columnCodepointG (H : Helpers)
    (self : RequestWrap → String → Except PyErr PyVal × RequestWrap)
    (s : RequestWrap) : Except PyErr PyVal × RequestWrap :=
  match self s "line_bytes" with
  | (.error e, s1) => (.error e, s1)
  | (.ok lb, s1) =>
    match self s1 "column_num" with
    | (.error e, s2) => (.error e, s2)
    | (.ok cn, s2) =>
      (.ok (.int (H.byteOffsetToCodepointOffset lb cn)), s2)

/-- Getter `_GetCompletionStartCodepoint`: delegate to
`CompletionStartCodepoint` on `self[ 'line_value' ]`, `self[ 'column_num' ]`
and `self[ 'first_filetype' ]`. -/
def getCompletionStartCodepointG (H : Helpers)
    (self : RequestWrap → String → Except PyErr PyVal × RequestWrap)
    (s : RequestWrap) : Except PyErr PyVal × RequestWrap :=
  match self s "line_value" with
  | (.error e, s1) => (.error e, s1)
  | (.ok lv, s1) =>
    match self s1 "column_num" with
    | (.error e, s2) => (.error e, s2)
    | (.ok cn, s2) =>
      match self s2 "first_filetype" with
      | (.error e, s3) => (.error e, s3)
      | (.ok ft, s3) =>
        (.ok (.int (CompletionStartCodepoint H lv cn ft)), s3)

/-- Getter `_GetCompletionStartColumn`: delegate to `CompletionStartColumn`
on `self[ 'line_value' ]`, `self[ 'column_num' ]` and
`self[ 'first_filetype' ]`. -/
def getCompletionStartColumnG (H : Helpers)
    (self : RequestWrap → String → Except PyErr PyVal × RequestWrap)
    (s : RequestWrap) : Except PyErr PyVal × RequestWrap :=
  match self s "line_value" with
  | (.error e, s1) => (.error e, s1)
  | (.ok lv, s1) =>
    match self s1 "column_num" with
    | (.error e, s2) => (.error e, s2)
    | (.ok cn, s2) =>
      match self s2 "first_filetype" with
      | (.error e, s3) => (.error e, s3)
      | (.ok ft, s3) =>
        (.ok (.int (CompletionStartColumn H lv cn ft)), s3)

/-- Getter `_Query`:
`self[ 'line_value' ][ self[ 'start_codepoint' ] - 1 : self[ 'column_codepoint' ] - 1 ]`.
The subtractions require integer operands (`TypeError` otherwise), then the
slice follows Python string-slicing semantics (`pySlice`). -/
def queryG
    (self : RequestWrap → String → Except PyErr PyVal × RequestWrap)
    (s : RequestWrap) : Except PyErr PyVal × RequestWrap :=
  match self s "line_value" with
  | (.error e, s1) => (.error e, s1)
  | (.ok lv, s1) =>
    match self s1 "start_codepoint" with
    | (.error e, s2) => (.error e, s2)
    | (.ok sc, s2) =>
      match self s2 "column_codepoint" with
      | (.error e, s3) => (.error e, s3)
      | (.ok cc, s3) =>
        match lv, sc, cc with
        | .str line, .int a, .int b =>
          (.ok (.str (pySlice line (a - 1) (b - 1))), s3)
        | _, _, _ => (.error .typeError, s3)

/-- Getter `_Filetypes`:
`self[ 'file_data' ][ self[ 'filepath' ] ][ 'filetypes' ]` (the path read
through the view, so derived shadowing applies, then two subscripts). -/
def filetypesG
    (self : RequestWrap → String → Except PyErr PyVal × RequestWrap)
    (s : RequestWrap) : Except PyErr PyVal × RequestWrap :=
  match self s "filepath" with
  | (.error e, s1) => (.error e, s1)
  | (.ok path, s1) =>
    match self s1 "file_data" with
    | (.error e, s2) => (.error e, s2)
    | (.ok fd, s2) =>
      match pySubscript fd path with
      | .error e => (.error e, s2)
      | .ok entry =>
        match pySubscript entry (.str "filetypes") with
        | .error e => (.error e, s2)
        | .ok fts => (.ok fts, s2)

/-- Getter `_FirstFiletype`: `self[ 'filetypes' ][ 0 ]` inside a
`try ... except (KeyError, IndexError): return None`, so both a lookup
failure while resolving `filetypes` and an out-of-range first element are
converted to `None`; any other exception propagates. -/
def firstFiletypeG
    (self : RequestWrap → String → Except PyErr PyVal × RequestWrap)
    (s : RequestWrap) : Except PyErr PyVal × RequestWrap :=
  match self s "filetypes" with
  | (.ok v, s1) =>
    match pySubscript v (.int 0) with
    | .ok x => (.ok x, s1)
    | .error (.keyError _) => (.ok .pynone, s1)
    | .error .indexError => (.ok .pynone, s1)
    | .error e => (.error e, s1)
  | (.error (.keyError _), s1) => (.ok .pynone, s1)
  | (.error .indexError, s1) => (.ok .pynone, s1)
  | (.error e, s1) => (.error e, s1)

/-- Dispatch from a derived-field name to its getter, mirroring the
`_computed_key` registry (getter components only). `self` is the recursive
view lookup the getter bodies call. -/
def runComputed (H : Helpers)
    (self : RequestWrap → String → Except PyErr PyVal × RequestWrap)
    (key : String) (s : RequestWrap) : Except PyErr PyVal × RequestWrap :=
  if key = "line_value" then currentLine H s
  else if key = "start_codepoint" then getCompletionStartCodepointG H self s
  else if key = "column_codepoint" then columnCodepointG H self s
  else if key = "line_bytes" then lineBytesG H self s
  else if key = "start_column" then getCompletionStartColumnG H self s
  else if key = "query" then queryG self s
  else if key = "filetypes" then filetypesG self s
  else if key = "first_filetype" then firstFiletypeG self s
  else (.error (.keyError key), s)

/-- `RequestWrap.__getitem__`, as a fuel-indexed interpreter: a cached value
is returned as is; otherwise a registered derived field's getter runs (the
invocation is logged in `calls`) and its result is stored in the cache;
otherwise the key is looked up in the raw request, raising `KeyError` when
absent. The fuel only bounds the getter recursion depth; the dependency
graph of the registered fields has depth at most five, so any fuel of at
least six makes `outOfFuel` unreachable. -/
def getItemF (H : Helpers) :
    Nat → RequestWrap → String → Except PyErr PyVal × RequestWrap
  | 0, s, _ => (.error .outOfFuel, s)
  | n + 1, s, key =>
    match dictFind? s.cachedComputed key with
    | some v => (.ok v, s)
    | none =>
      if key ∈ computedKeys then
        match runComputed H (getItemF H n) key
            { s with calls := s.calls ++ [key] } with
        | (.ok v, s1) =>
          (.ok v, { s1 with cachedComputed := dictSet s1.cachedComputed key v })
        | (.error e, s1) => (.error e, s1)
      else
        match dictFind? s.request key with
        | some v => (.ok v, s)
        | none => (.error (.keyError key), s)

/-- `RequestWrap.__getitem__` at a fuel that covers the whole dependency
graph. -/
def getItem (H : Helpers) (s : RequestWrap) (key : String) :
    Except PyErr PyVal × RequestWrap :=
  getItemF H 8 s key

/-- Setter `_SetCompletionStartColumn( column_num )`: cache the raw value
under `start_column`, eagerly cache the codepoint equivalent (computed from
`self[ 'line_value' ]` and the new value, not from the cursor column) under
`start_codepoint`, and drop any cached `query`. An exception while resolving
`line_value` propagates, leaving the already-performed cache write in
place. -/
def setCompletionStartColumn (H : Helpers) (s : RequestWrap)
    (column_num : PyVal) : Except PyErr Unit × RequestWrap :=
  let s1 : RequestWrap :=
    { s with cachedComputed := dictSet s.cachedComputed "start_column" column_num }
  match getItem H s1 "line_value" with
  | (.error e, s2) => (.error e, s2)
  | (.ok lv, s2) =>
    let cp : PyVal := .int (H.byteOffsetToCodepointOffset lv column_num)
    let s3 : RequestWrap :=
      { s2 with cachedComputed := dictSet s2.cachedComputed "start_codepoint" cp }
    (.ok (), { s3 with cachedComputed := dictPop s3.cachedComputed "query" })

/-- Setter `_SetCompletionStartCodepoint( codepoint_offset )`: mirror image
of `setCompletionStartColumn` — cache the raw value under
`start_codepoint`, eagerly cache the byte equivalent under `start_column`,
drop any cached `query`. -/
def setCompletionStartCodepoint (H : Helpers) (s : RequestWrap)
    (codepoint_offset : PyVal) : Except PyErr Unit × RequestWrap :=
  let s1 : RequestWrap :=
    { s with cachedComputed :=
        dictSet s.cachedComputed "start_codepoint" codepoint_offset }
  match getItem H s1 "line_value" with
  | (.error e, s2) => (.error e, s2)
  | (.ok lv, s2) =>
    let bp : PyVal := .int (H.codepointOffsetToByteOffset lv codepoint_offset)
    let s3 : RequestWrap :=
      { s2 with cachedComputed := dictSet s2.cachedComputed "start_column" bp }
    (.ok (), { s3 with cachedComputed := dictPop s3.cachedComputed "query" })

/-- `RequestWrap.__setitem__`: if the key names a registered derived field
with a setter (only `start_codepoint` and `start_column` have one), run the
setter; every other key — derived without a setter, raw, or unknown —
raises `ValueError` (the read-only error). -/
def setItem (H : Helpers) (s : RequestWrap) (key : String) (value : PyVal) :
    Except PyErr Unit × RequestWrap :=
  if key ∈ computedKeys then
    if key = "start_codepoint" then setCompletionStartCodepoint H s value
    else if key = "start_column" then setCompletionStartColumn H s value
    else (.error (.valueError key), s)
  else (.error (.valueError key), s)

/-- `RequestWrap.__contains__`: a key is reported present when it names a
registered derived field or occurs in the raw request; a pure function of
the state — no getter runs and nothing is cached. -/
def containsKey (s : RequestWrap) (key : String) : Bool :=
  decide (key ∈ computedKeys) || (dictFind? s.request key).isSome

/-- `RequestWrap.get( key, default )`: `self[ key ]`, with any `KeyError` —
whether from the raw lookup or raised inside a derived getter — converted
to the default; other exceptions propagate. -/
def getOr (H : Helpers) (s : RequestWrap) (key : String) (default : PyVal) :
    Except PyErr PyVal × RequestWrap :=
  match getItem H s key with
  | (.ok v, s1) => (.ok v, s1)
  | (.error (.keyError _), s1) => (.ok default, s1)
  | (.error e, s1) => (.error e, s1)

/-- A well-formed raw request over a single file `"/f"`, used to state the
theorems about the derived getters: the four fields the request must carry,
with the file's `contents` and `filetypes` entries as given. -/
def stdRequest (ln cn : Int) (contents ftsv : PyVal) : List (String × PyVal) :=
  [("filepath", .str "/f"),
   ("line_num", .int ln),
   ("column_num", .int cn),
   ("file_data", .dict [("/f", .dict [("contents", contents), ("filetypes", ftsv)])])]

/-- Word characters of the default identifier policy, used only by the
concrete scanner instance below. -/
def isIdentChar (c : Char) : Bool := c.isAlphanum || c = '_'

/-- A concrete identifier-boundary scanner for witnesses: the 0-based start
of the longest run of word characters ending just before `idx`, ignoring
the filetype. The claims' theorems quantify over every scanner; this
instance only evaluates witnesses. -/
def identScanDefault (line : String) (idx : Int) (_ft : PyVal) : Int :=
  if idx ≤ 0 then idx
  else
    (idx.toNat : Int) -
      (((line.data.take idx.toNat).reverse.takeWhile isIdentChar).length : Int)

/-- The integer carried by a `PyVal.int`, 0 otherwise; used by the concrete
offset converters below. -/
def intOr0 : PyVal → Int
  | .int n => n
  | _ => 0

/-- A concrete instantiation of the abstract leaf helpers, adequate for
ASCII-only lines (byte and codepoint offsets coincide, so both converters
return an integer offset unchanged); lines split on the newline character;
the scanner applies the default word-character policy. Used only to
evaluate witnesses — every claim theorem quantifies over all helpers. -/
def asciiHelpers : Helpers where
  byteOffsetToCodepointOffset := fun _ v => intOr0 v
  codepointOffsetToByteOffset := fun _ v => intOr0 v
  toUnicode := fun v => match v with | .str s => s | _ => ""
  toBytes := fun v => match v with | .str s => s.data.map Char.toNat | _ => []
  splitLines := fun v => match v with | .str s => s.splitOn "\n" | _ => []
  startOfLongestIdentifierEndingAtIndex := identScanDefault

/-- A fresh view over the spec's P5 scenario: one-line file `"foo.bar"`,
cursor at 1-based byte column 8 (just past `r`). -/
def exView : RequestWrap :=
  RequestWrap.init (stdRequest 1 8 (.str "foo.bar") (.list [.str "python"]))

/-- A fresh view over the P5 file but with the cursor at byte column 0:
used to exhibit the inverted-range behavior of `_Query`. -/
def exViewCol0 : RequestWrap :=
  RequestWrap.init (stdRequest 1 0 (.str "foo.bar") (.list [.str "python"]))

/-- A fresh view whose request records a `filepath` that has no entry in
`file_data`: resolving `line_value` raises `KeyError` from inside the
getter. -/
def exViewNoFile : RequestWrap :=
  RequestWrap.init
    [("filepath", .str "/f"), ("line_num", .int 1), ("column_num", .int 1),
     ("file_data", .dict [])]

/-- A view with pre-cached `line_value`, `start_codepoint` and
`column_codepoint` entries, used to evaluate the query getter on its cached
inputs. -/
def exViewCachedQuery : RequestWrap :=
  { request := [],
    cachedComputed :=
      [("line_value", .str "xy"), ("start_codepoint", .int 1),
       ("column_codepoint", .int 3)],
    calls := [] }

/-- A state transformer over views preserves a given cache entry. -/
def PreservesEntry (k : String) (v : PyVal)
    (f : RequestWrap → String → Except PyErr PyVal × RequestWrap) : Prop :=
  ∀ (s : RequestWrap) (j : String), dictFind? s.cachedComputed k = some v →
    dictFind? ((f s j).2).cachedComputed k = some v

/-- A state transformer over views only appends to the instrumentation log
of getter invocations. -/
def ExtendsCalls
    (f : RequestWrap → String → Except PyErr PyVal × RequestWrap) : Prop :=
  ∀ (s : RequestWrap) (j : String), ∃ t, ((f s j).2).calls = s.calls ++ t

end RequestWrapModel

namespace RequestWrapModel

theorem dictFind?_dictSet_self (m : List (String × PyVal)) (k : String) (v : PyVal) :
    dictFind? (dictSet m k v) k = some v := by
  induction m with
  | nil => simp [dictSet, dictFind?]
  | cons e rest ih =>
    obtain ⟨k1, v1⟩ := e
    by_cases h : k1 = k
    · simp [dictSet, dictFind?, h]
    · simp [dictSet, dictFind?, h, ih]

theorem dictFind?_dictSet_ne (m : List (String × PyVal)) (k1 k2 : String)
    (v : PyVal) (h : k1 ≠ k2) :
    dictFind? (dictSet m k1 v) k2 = dictFind? m k2 := by
  induction m with
  | nil => simp [dictSet, dictFind?, h]
  | cons e rest ih =>
    obtain ⟨k0, v0⟩ := e
    by_cases h0 : k0 = k1
    · subst h0
      simp [dictSet, dictFind?, h]
    · by_cases h2 : k0 = k2
      · subst h2
        simp [dictSet, dictFind?, h0]
      · simp [dictSet, dictFind?, h0, h2, ih]

theorem dictFind?_dictPop_self (m : List (String × PyVal)) (k : String) :
    dictFind? (dictPop m k) k = none := by
  induction m with
  | nil => simp [dictPop, dictFind?]
  | cons e rest ih =>
    obtain ⟨k0, v0⟩ := e
    by_cases h0 : k0 = k
    · simpa [dictPop, h0] using ih
    · simpa [dictPop, dictFind?, h0] using ih

theorem dictFind?_dictPop_ne (m : List (String × PyVal)) (k1 k2 : String)
    (h : k1 ≠ k2) :
    dictFind? (dictPop m k1) k2 = dictFind? m k2 := by
  induction m with
  | nil => simp [dictPop, dictFind?]
  | cons e rest ih =>
    obtain ⟨k0, v0⟩ := e
    by_cases h0 : k0 = k1
    · subst h0
      simp [dictPop, dictFind?, h, ih]
    · by_cases h2 : k0 = k2
      · subst h2
        simp [dictPop, dictFind?, h0]
      · simp [dictPop, dictFind?, h0, h2, ih]

theorem pyGetIdx_cons_zero {a : Type} (x : a) (xs : List a) :
    pyGetIdx (x :: xs) 0 = .ok x := by
  simp [pyGetIdx]

theorem pyGetIdx_nonneg {a : Type} (xs : List a) (i : Int) (x : a)
    (h0 : 0 ≤ i) (h : xs.get? i.toNat = some x) : pyGetIdx xs i = .ok x := by
  simp only [pyGetIdx]
  rw [if_neg (by omega), if_neg (by omega), h]

theorem pyGetIdx_oobHigh {a : Type} (xs : List a) (i : Int)
    (h : (xs.length : Int) ≤ i) : pyGetIdx xs i = .error .indexError := by
  simp only [pyGetIdx]
  rw [if_neg (by omega), if_neg (by omega)]
  rw [List.get?_eq_none.2 (by omega)]

theorem pyGetIdx_neg {a : Type} (xs : List a) (i : Int) (x : a)
    (hneg : i < 0) (h2 : 0 ≤ i + (xs.length : Int))
    (h : xs.get? (i + (xs.length : Int)).toNat = some x) :
    pyGetIdx xs i = .ok x := by
  simp only [pyGetIdx]
  have hj : (if i < 0 then i + (xs.length : Int) else i) = i + (xs.length : Int) :=
    if_pos hneg
  rw [hj, if_neg (by omega), h]

theorem getItemF_succ_cached (H : Helpers) (n : Nat) (s : RequestWrap)
    (key : String) (v : PyVal) (h : dictFind? s.cachedComputed key = some v) :
    getItemF H (n + 1) s key = (.ok v, s) := by
  simp [getItemF, h]

theorem getItemF_succ_miss (H : Helpers) (n : Nat) (s : RequestWrap)
    (key : String) (hm : dictFind? s.cachedComputed key = none)
    (hk : key ∈ computedKeys) :
    getItemF H (n + 1) s key =
      (match runComputed H (getItemF H n) key
          { s with calls := s.calls ++ [key] } with
       | (.ok v, s1) =>
         (.ok v, { s1 with cachedComputed := dictSet s1.cachedComputed key v })
       | (.error e, s1) => (.error e, s1)) := by
  simp [getItemF, hm, hk]

theorem getItem_cached (H : Helpers) (s : RequestWrap) (key : String)
    (v : PyVal) (h : dictFind? s.cachedComputed key = some v) :
    getItem H s key = (.ok v, s) :=
  getItemF_succ_cached H 7 s key v h

end RequestWrapModel

namespace RequestWrapModel

theorem getItemF_succ_raw (H : Helpers) (n : Nat) (s : RequestWrap)
    (key : String) (hm : dictFind? s.cachedComputed key = none)
    (hk : key ∉ computedKeys) :
    getItemF H (n + 1) s key =
      (match dictFind? s.request key with
       | some v => (.ok v, s)
       | none => (.error (.keyError key), s)) := by
  simp [getItemF, hm, hk]

theorem currentLine_preserves (H : Helpers) (k : String) (v : PyVal)
    (s : RequestWrap) (hc : dictFind? s.cachedComputed k = some v) :
    dictFind? ((currentLine H s).2).cachedComputed k = some v := by
  unfold currentLine
  repeat' split
  all_goals exact hc

theorem lineBytesG_preserves (H : Helpers) (k : String) (v : PyVal)
    (self : RequestWrap → String → Except PyErr PyVal × RequestWrap)
    (hself : PreservesEntry k v self) (s : RequestWrap)
    (hc : dictFind? s.cachedComputed k = some v) :
    dictFind? ((lineBytesG H self s).2).cachedComputed k = some v := by
  unfold lineBytesG
  have h1 := hself s "line_value" hc
  rcases hx : self s "line_value" with ⟨r, s1⟩
  rw [hx] at h1
  cases r <;> exact h1

theorem columnCodepointG_preserves (H : Helpers) (k : String) (v : PyVal)
    (self : RequestWrap → String → Except PyErr PyVal × RequestWrap)
    (hself : PreservesEntry k v self) (s : RequestWrap)
    (hc : dictFind? s.cachedComputed k = some v) :
    dictFind? ((columnCodepointG H self s).2).cachedComputed k = some v := by
  unfold columnCodepointG
  have h1 := hself s "line_bytes" hc
  rcases hx : self s "line_bytes" with ⟨r1, s1⟩
  rw [hx] at h1
  cases r1 with
  | error e => exact h1
  | ok lb =>
    dsimp only
    have h2 := hself s1 "column_num" h1
    rcases hy : self s1 "column_num" with ⟨r2, s2⟩
    rw [hy] at h2
    cases r2 <;> exact h2

theorem getCompletionStartCodepointG_preserves (H : Helpers) (k : String)
    (v : PyVal)
    (self : RequestWrap → String → Except PyErr PyVal × RequestWrap)
    (hself : PreservesEntry k v self) (s : RequestWrap)
    (hc : dictFind? s.cachedComputed k = some v) :
    dictFind? ((getCompletionStartCodepointG H self s).2).cachedComputed k
      = some v := by
  unfold getCompletionStartCodepointG
  have h1 := hself s "line_value" hc
  rcases hx : self s "line_value" with ⟨r1, s1⟩
  rw [hx] at h1
  cases r1 with
  | error e => exact h1
  | ok lv =>
    dsimp only
    have h2 := hself s1 "column_num" h1
    rcases hy : self s1 "column_num" with ⟨r2, s2⟩
    rw [hy] at h2
    cases r2 with
    | error e => exact h2
    | ok cn =>
      dsimp only
      have h3 := hself s2 "first_filetype" h2
      rcases hz : self s2 "first_filetype" with ⟨r3, s3⟩
      rw [hz] at h3
      cases r3 <;> exact h3

theorem getCompletionStartColumnG_preserves (H : Helpers) (k : String)
    (v : PyVal)
    (self : RequestWrap → String → Except PyErr PyVal × RequestWrap)
    (hself : PreservesEntry k v self) (s : RequestWrap)
    (hc : dictFind? s.cachedComputed k = some v) :
    dictFind? ((getCompletionStartColumnG H self s).2).cachedComputed k
      = some v := by
  unfold getCompletionStartColumnG
  have h1 := hself s "line_value" hc
  rcases hx : self s "line_value" with ⟨r1, s1⟩
  rw [hx] at h1
  cases r1 with
  | error e => exact h1
  | ok lv =>
    dsimp only
    have h2 := hself s1 "column_num" h1
    rcases hy : self s1 "column_num" with ⟨r2, s2⟩
    rw [hy] at h2
    cases r2 with
    | error e => exact h2
    | ok cn =>
      dsimp only
      have h3 := hself s2 "first_filetype" h2
      rcases hz : self s2 "first_filetype" with ⟨r3, s3⟩
      rw [hz] at h3
      cases r3 <;> exact h3

theorem queryG_preserves (k : String) (v : PyVal)
    (self : RequestWrap → String → Except PyErr PyVal × RequestWrap)
    (hself : PreservesEntry k v self) (s : RequestWrap)
    (hc : dictFind? s.cachedComputed k = some v) :
    dictFind? ((queryG self s).2).cachedComputed k = some v := by
  unfold queryG
  have h1 := hself s "line_value" hc
  rcases hx : self s "line_value" with ⟨r1, s1⟩
  rw [hx] at h1
  cases r1 with
  | error e => exact h1
  | ok lv =>
    dsimp only
    have h2 := hself s1 "start_codepoint" h1
    rcases hy : self s1 "start_codepoint" with ⟨r2, s2⟩
    rw [hy] at h2
    cases r2 with
    | error e => exact h2
    | ok sc =>
      dsimp only
      have h3 := hself s2 "column_codepoint" h2
      rcases hz : self s2 "column_codepoint" with ⟨r3, s3⟩
      rw [hz] at h3
      cases r3 with
      | error e => exact h3
      | ok cc =>
        dsimp only
        split <;> exact h3

theorem filetypesG_preserves (k : String) (v : PyVal)
    (self : RequestWrap → String → Except PyErr PyVal × RequestWrap)
    (hself : PreservesEntry k v self) (s : RequestWrap)
    (hc : dictFind? s.cachedComputed k = some v) :
    dictFind? ((filetypesG self s).2).cachedComputed k = some v := by
  unfold filetypesG
  have h1 := hself s "filepath" hc
  rcases hx : self s "filepath" with ⟨r1, s1⟩
  rw [hx] at h1
  cases r1 with
  | error e => exact h1
  | ok path =>
    dsimp only
    have h2 := hself s1 "file_data" h1
    rcases hy : self s1 "file_data" with ⟨r2, s2⟩
    rw [hy] at h2
    cases r2 with
    | error e => exact h2
    | ok fd =>
      dsimp only
      repeat' split
      all_goals exact h2

theorem firstFiletypeG_preserves (k : String) (v : PyVal)
    (self : RequestWrap → String → Except PyErr PyVal × RequestWrap)
    (hself : PreservesEntry k v self) (s : RequestWrap)
    (hc : dictFind? s.cachedComputed k = some v) :
    dictFind? ((firstFiletypeG self s).2).cachedComputed k = some v := by
  unfold firstFiletypeG
  have h1 := hself s "filetypes" hc
  rcases hx : self s "filetypes" with ⟨r1, s1⟩
  rw [hx] at h1
  cases r1 with
  | ok fv =>
    dsimp only
    repeat' split
    all_goals exact h1
  | error e => cases e <;> exact h1

theorem runComputed_preserves (H : Helpers) (k : String) (v : PyVal)
    (self : RequestWrap → String → Except PyErr PyVal × RequestWrap)
    (hself : PreservesEntry k v self) (key : String) (s : RequestWrap)
    (hc : dictFind? s.cachedComputed k = some v) :
    dictFind? ((runComputed H self key s).2).cachedComputed k = some v := by
  unfold runComputed
  split_ifs
  · exact currentLine_preserves H k v s hc
  · exact getCompletionStartCodepointG_preserves H k v self hself s hc
  · exact columnCodepointG_preserves H k v self hself s hc
  · exact lineBytesG_preserves H k v self hself s hc
  · exact getCompletionStartColumnG_preserves H k v self hself s hc
  · exact queryG_preserves k v self hself s hc
  · exact filetypesG_preserves k v self hself s hc
  · exact firstFiletypeG_preserves k v self hself s hc
  · exact hc

theorem getItemF_preserves (H : Helpers) (k : String) (v : PyVal) :
    ∀ n : Nat, PreservesEntry k v (getItemF H n) := by
  intro n
  induction n with
  | zero =>
    intro s j hc
    exact hc
  | succ n ih =>
    intro s j hc
    rcases hm : dictFind? s.cachedComputed j with _ | v0
    · by_cases hk : j ∈ computedKeys
      · rw [getItemF_succ_miss H n s j hm hk]
        have hjk : j ≠ k := by
          intro he
          rw [he, hc] at hm
          exact Option.noConfusion hm
        have hrc := runComputed_preserves H k v (getItemF H n) ih j
          { s with calls := s.calls ++ [j] } hc
        rcases hx : runComputed H (getItemF H n) j
            { s with calls := s.calls ++ [j] } with ⟨r, s1⟩
        rw [hx] at hrc
        cases r with
        | ok v2 =>
          show dictFind? (dictSet s1.cachedComputed j v2) k = some v
          rw [dictFind?_dictSet_ne _ j k v2 hjk]
          exact hrc
        | error e => exact hrc
      · rw [getItemF_succ_raw H n s j hm hk]
        split <;> exact hc
    · rw [getItemF_succ_cached H n s j v0 hm]
      exact hc

theorem getItem_preserves (H : Helpers) (k : String) (v : PyVal)
    (s : RequestWrap) (j : String)
    (hc : dictFind? s.cachedComputed k = some v) :
    dictFind? ((getItem H s j).2).cachedComputed k = some v :=
  getItemF_preserves H k v 8 s j hc

theorem getItem_result_cached (H : Helpers) (s : RequestWrap) (key : String)
    (v : PyVal) (s1 : RequestWrap) (hk : key ∈ computedKeys)
    (h : getItem H s key = (.ok v, s1)) :
    dictFind? s1.cachedComputed key = some v := by
  rcases hm : dictFind? s.cachedComputed key with _ | v0
  · unfold getItem at h
    rw [getItemF_succ_miss H 7 s key hm hk] at h
    rcases hx : runComputed H (getItemF H 7) key
        { s with calls := s.calls ++ [key] } with ⟨r, s2⟩
    rw [hx] at h
    cases r with
    | ok v2 =>
      have h2 : v2 = v ∧
          ({ s2 with cachedComputed := dictSet s2.cachedComputed key v2 }
            : RequestWrap) = s1 := by
        constructor
        · exact Except.ok.inj (congrArg Prod.fst h)
        · exact congrArg Prod.snd h
      rw [← h2.2, h2.1]
      exact dictFind?_dictSet_self s2.cachedComputed key v
    | error e => exact absurd (congrArg Prod.fst h) (by simp)
  · unfold getItem at h
    rw [getItemF_succ_cached H 7 s key v0 hm] at h
    have h1 : v0 = v := Except.ok.inj (congrArg Prod.fst h)
    have h2 : s = s1 := congrArg Prod.snd h
    rw [← h2, ← h1]
    exact hm

theorem currentLine_extends (H : Helpers) (s : RequestWrap) :
    ∃ t, ((currentLine H s).2).calls = s.calls ++ t := by
  refine ⟨[], ?_⟩
  unfold currentLine
  repeat' split
  all_goals simp

theorem lineBytesG_extends (H : Helpers)
    (self : RequestWrap → String → Except PyErr PyVal × RequestWrap)
    (hext : ExtendsCalls self) (s : RequestWrap) :
    ∃ t, ((lineBytesG H self s).2).calls = s.calls ++ t := by
  unfold lineBytesG
  obtain ⟨t1, h1⟩ := hext s "line_value"
  rcases hx : self s "line_value" with ⟨r, s1⟩
  rw [hx] at h1
  cases r <;> exact ⟨t1, h1⟩

theorem columnCodepointG_extends (H : Helpers)
    (self : RequestWrap → String → Except PyErr PyVal × RequestWrap)
    (hext : ExtendsCalls self) (s : RequestWrap) :
    ∃ t, ((columnCodepointG H self s).2).calls = s.calls ++ t := by
  unfold columnCodepointG
  obtain ⟨t1, h1⟩ := hext s "line_bytes"
  rcases hx : self s "line_bytes" with ⟨r1, s1⟩
  rw [hx] at h1
  cases r1 with
  | error e => exact ⟨t1, h1⟩
  | ok lb =>
    dsimp only
    obtain ⟨t2, h2⟩ := hext s1 "column_num"
    rcases hy : self s1 "column_num" with ⟨r2, s2⟩
    rw [hy] at h2
    cases r2 <;> exact ⟨t1 ++ t2, by rw [h2, h1, List.append_assoc]⟩

theorem getCompletionStartCodepointG_extends (H : Helpers)
    (self : RequestWrap → String → Except PyErr PyVal × RequestWrap)
    (hext : ExtendsCalls self) (s : RequestWrap) :
    ∃ t, ((getCompletionStartCodepointG H self s).2).calls = s.calls ++ t := by
  unfold getCompletionStartCodepointG
  obtain ⟨t1, h1⟩ := hext s "line_value"
  rcases hx : self s "line_value" with ⟨r1, s1⟩
  rw [hx] at h1
  cases r1 with
  | error e => exact ⟨t1, h1⟩
  | ok lv =>
    dsimp only
    obtain ⟨t2, h2⟩ := hext s1 "column_num"
    rcases hy : self s1 "column_num" with ⟨r2, s2⟩
    rw [hy] at h2
    cases r2 with
    | error e => exact ⟨t1 ++ t2, by rw [h2, h1, List.append_assoc]⟩
    | ok cn =>
      dsimp only
      obtain ⟨t3, h3⟩ := hext s2 "first_filetype"
      rcases hz : self s2 "first_filetype" with ⟨r3, s3⟩
      rw [hz] at h3
      cases r3 <;>
        exact ⟨t1 ++ t2 ++ t3,
          by rw [h3, h2, h1, List.append_assoc, List.append_assoc,
                 List.append_assoc]⟩

theorem getCompletionStartColumnG_extends (H : Helpers)
    (self : RequestWrap → String → Except PyErr PyVal × RequestWrap)
    (hext : ExtendsCalls self) (s : RequestWrap) :
    ∃ t, ((getCompletionStartColumnG H self s).2).calls = s.calls ++ t := by
  unfold getCompletionStartColumnG
  obtain ⟨t1, h1⟩ := hext s "line_value"
  rcases hx : self s "line_value" with ⟨r1, s1⟩
  rw [hx] at h1
  cases r1 with
  | error e => exact ⟨t1, h1⟩
  | ok lv =>
    dsimp only
    obtain ⟨t2, h2⟩ := hext s1 "column_num"
    rcases hy : self s1 "column_num" with ⟨r2, s2⟩
    rw [hy] at h2
    cases r2 with
    | error e => exact ⟨t1 ++ t2, by rw [h2, h1, List.append_assoc]⟩
    | ok cn =>
      dsimp only
      obtain ⟨t3, h3⟩ := hext s2 "first_filetype"
      rcases hz : self s2 "first_filetype" with ⟨r3, s3⟩
      rw [hz] at h3
      cases r3 <;>
        exact ⟨t1 ++ t2 ++ t3,
          by rw [h3, h2, h1, List.append_assoc, List.append_assoc,
                 List.append_assoc]⟩

theorem queryG_extends
    (self : RequestWrap → String → Except PyErr PyVal × RequestWrap)
    (hext : ExtendsCalls self) (s : RequestWrap) :
    ∃ t, ((queryG self s).2).calls = s.calls ++ t := by
  unfold queryG
  obtain ⟨t1, h1⟩ := hext s "line_value"
  rcases hx : self s "line_value" with ⟨r1, s1⟩
  rw [hx] at h1
  cases r1 with
  | error e => exact ⟨t1, h1⟩
  | ok lv =>
    dsimp only
    obtain ⟨t2, h2⟩ := hext s1 "start_codepoint"
    rcases hy : self s1 "start_codepoint" with ⟨r2, s2⟩
    rw [hy] at h2
    cases r2 with
    | error e => exact ⟨t1 ++ t2, by rw [h2, h1, List.append_assoc]⟩
    | ok sc =>
      dsimp only
      obtain ⟨t3, h3⟩ := hext s2 "column_codepoint"
      rcases hz : self s2 "column_codepoint" with ⟨r3, s3⟩
      rw [hz] at h3
      cases r3 with
      | error e =>
        exact ⟨t1 ++ t2 ++ t3,
          by rw [h3, h2, h1, List.append_assoc, List.append_assoc,
                 List.append_assoc]⟩
      | ok cc =>
        dsimp only
        refine ⟨t1 ++ t2 ++ t3, ?_⟩
        split <;>
          rw [h3, h2, h1, List.append_assoc, List.append_assoc,
              List.append_assoc]

theorem filetypesG_extends
    (self : RequestWrap → String → Except PyErr PyVal × RequestWrap)
    (hext : ExtendsCalls self) (s : RequestWrap) :
    ∃ t, ((filetypesG self s).2).calls = s.calls ++ t := by
  unfold filetypesG
  obtain ⟨t1, h1⟩ := hext s "filepath"
  rcases hx : self s "filepath" with ⟨r1, s1⟩
  rw [hx] at h1
  cases r1 with
  | error e => exact ⟨t1, h1⟩
  | ok path =>
    dsimp only
    obtain ⟨t2, h2⟩ := hext s1 "file_data"
    rcases hy : self s1 "file_data" with ⟨r2, s2⟩
    rw [hy] at h2
    cases r2 with
    | error e => exact ⟨t1 ++ t2, by rw [h2, h1, List.append_assoc]⟩
    | ok fd =>
      dsimp only
      refine ⟨t1 ++ t2, ?_⟩
      repeat' split
      all_goals rw [h2, h1, List.append_assoc]

theorem firstFiletypeG_extends
    (self : RequestWrap → String → Except PyErr PyVal × RequestWrap)
    (hext : ExtendsCalls self) (s : RequestWrap) :
    ∃ t, ((firstFiletypeG self s).2).calls = s.calls ++ t := by
  unfold firstFiletypeG
  obtain ⟨t1, h1⟩ := hext s "filetypes"
  rcases hx : self s "filetypes" with ⟨r1, s1⟩
  rw [hx] at h1
  cases r1 with
  | ok fv =>
    dsimp only
    refine ⟨t1, ?_⟩
    repeat' split
    all_goals exact h1
  | error e =>
    cases e <;> exact ⟨t1, h1⟩

theorem runComputed_extends (H : Helpers)
    (self : RequestWrap → String → Except PyErr PyVal × RequestWrap)
    (hext : ExtendsCalls self) (key : String) (s : RequestWrap) :
    ∃ t, ((runComputed H self key s).2).calls = s.calls ++ t := by
  unfold runComputed
  split_ifs
  · exact currentLine_extends H s
  · exact getCompletionStartCodepointG_extends H self hext s
  · exact columnCodepointG_extends H self hext s
  · exact lineBytesG_extends H self hext s
  · exact getCompletionStartColumnG_extends H self hext s
  · exact queryG_extends self hext s
  · exact filetypesG_extends self hext s
  · exact firstFiletypeG_extends self hext s
  · exact ⟨[], by simp⟩

theorem getItemF_extends (H : Helpers) :
    ∀ n : Nat, ExtendsCalls (getItemF H n) := by
  intro n
  induction n with
  | zero =>
    intro s j
    exact ⟨[], by simp [getItemF]⟩
  | succ n ih =>
    intro s j
    rcases hm : dictFind? s.cachedComputed j with _ | v0
    · by_cases hk : j ∈ computedKeys
      · rw [getItemF_succ_miss H n s j hm hk]
        obtain ⟨t, ht⟩ := runComputed_extends H (getItemF H n) ih j
          { s with calls := s.calls ++ [j] }
        rcases hx : runComputed H (getItemF H n) j
            { s with calls := s.calls ++ [j] } with ⟨r, s1⟩
        rw [hx] at ht
        cases r with
        | ok v2 => exact ⟨[j] ++ t, by rw [ht, List.append_assoc]⟩
        | error e => exact ⟨[j] ++ t, by rw [ht, List.append_assoc]⟩
      · rw [getItemF_succ_raw H n s j hm hk]
        refine ⟨[], ?_⟩
        split <;> simp
    · rw [getItemF_succ_cached H n s j v0 hm]
      exact ⟨[], by simp⟩

theorem getItem_miss_calls (H : Helpers) (s : RequestWrap) (key : String)
    (v : PyVal) (s1 : RequestWrap) (hk : key ∈ computedKeys)
    (hm : dictFind? s.cachedComputed key = none)
    (h : getItem H s key = (.ok v, s1)) :
    ∃ t, s1.calls = s.calls ++ key :: t := by
  unfold getItem at h
  rw [getItemF_succ_miss H 7 s key hm hk] at h
  obtain ⟨t, ht⟩ := runComputed_extends H (getItemF H 7) (getItemF_extends H 7)
    key { s with calls := s.calls ++ [key] }
  rcases hx : runComputed H (getItemF H 7) key
      { s with calls := s.calls ++ [key] } with ⟨r, s2⟩
  rw [hx] at h ht
  cases r with
  | ok v2 =>
    have h2 : ({ s2 with cachedComputed := dictSet s2.cachedComputed key v2 }
        : RequestWrap) = s1 := congrArg Prod.snd h
    refine ⟨t, ?_⟩
    rw [← h2]
    show s2.calls = s.calls ++ key :: t
    rw [ht, List.append_assoc]
    rfl
  | error e => exact absurd (congrArg Prod.fst h) (by simp)

/-- C5: for every derived field name `k`, the first `get(k)` on a view with
no cached entry for `k` invokes the field's getter (the invocation log gains
`k`) and stores the result in the cache; every subsequent `get(k)` with no
intervening `set` or invalidation — including after further `get`s of other
keys, which never evict the entry — returns that identical cached value with
the state unchanged, so the getter is not invoked again. -/
theorem claim_C5 (H : Helpers) (k : String) (s s1 : RequestWrap) (v : PyVal)
    (hk : k ∈ computedKeys)
    (hmiss : dictFind? s.cachedComputed k = none)
    (hrun : getItem H s k = (.ok v, s1)) :
    (∃ t, s1.calls = s.calls ++ k :: t) ∧
    dictFind? s1.cachedComputed k = some v ∧
    getItem H s1 k = (.ok v, s1) ∧
    (∀ s2 : RequestWrap, dictFind? s2.cachedComputed k = some v →
      getItem H s2 k = (.ok v, s2)) ∧
    (∀ (s2 : RequestWrap) (j : String),
      dictFind? s2.cachedComputed k = some v →
      dictFind? ((getItem H s2 j).2).cachedComputed k = some v) := by
  have h2 := getItem_result_cached H s k v s1 hk hrun
  exact ⟨getItem_miss_calls H s k v s1 hk hmiss hrun, h2,
    getItem_cached H s1 k v h2,
    fun s2 hc => getItem_cached H s2 k v hc,
    fun s2 j hc => getItem_preserves H k v s2 j hc⟩

/-- Witness for C5 at the P5 view and field `line_value`: the first read
caches the line, and the theorem's hypotheses hold at this input. -/
theorem claim_C5_witness :
    dictFind?
        ((getItem asciiHelpers exView "line_value").2).cachedComputed
        "line_value"
      = some (.str "foo.bar") :=
  (claim_C5 asciiHelpers "line_value" exView
    ((getItem asciiHelpers exView "line_value").2) (.str "foo.bar")
    (by decide) (by with_unfolding_all rfl)
    (by with_unfolding_all rfl)).2.1

/-- C1: after `set("start_column", v)` the cache holds `start_column = v`,
`start_codepoint = ByteOffsetToCodepointOffset(line_value, v)` and no
`query` entry, and `get("start_codepoint")` returns that converted value
from cache; symmetrically, after `set("start_codepoint", v)` the cache
holds `start_codepoint = v`,
`start_column = CodepointOffsetToByteOffset(line_value, v)` and no `query`
entry, and `get("start_column")` returns the converted value — overriding
either start field fully determines the other with no stale re-derivation. -/
theorem claim_C1 (H : Helpers) :
    (∀ (s s1 : RequestWrap) (v : PyVal),
      setItem H s "start_column" v = (.ok (), s1) →
      ∃ lv, dictFind? s1.cachedComputed "line_value" = some lv ∧
        dictFind? s1.cachedComputed "start_column" = some v ∧
        dictFind? s1.cachedComputed "start_codepoint"
          = some (.int (H.byteOffsetToCodepointOffset lv v)) ∧
        dictFind? s1.cachedComputed "query" = none ∧
        getItem H s1 "start_codepoint"
          = (.ok (.int (H.byteOffsetToCodepointOffset lv v)), s1) ∧
        getItem H s1 "start_column" = (.ok v, s1)) ∧
    (∀ (s s1 : RequestWrap) (v : PyVal),
      setItem H s "start_codepoint" v = (.ok (), s1) →
      ∃ lv, dictFind? s1.cachedComputed "line_value" = some lv ∧
        dictFind? s1.cachedComputed "start_codepoint" = some v ∧
        dictFind? s1.cachedComputed "start_column"
          = some (.int (H.codepointOffsetToByteOffset lv v)) ∧
        dictFind? s1.cachedComputed "query" = none ∧
        getItem H s1 "start_column"
          = (.ok (.int (H.codepointOffsetToByteOffset lv v)), s1) ∧
        getItem H s1 "start_codepoint" = (.ok v, s1)) := by
  constructor
  · intro s s1 v hrun
    have hset : setItem H s "start_column" v = setCompletionStartColumn H s v := by
      with_unfolding_all rfl
    rw [hset] at hrun
    rw [setCompletionStartColumn] at hrun
    dsimp only at hrun
    rcases hgl : getItem H
        { s with cachedComputed := dictSet s.cachedComputed "start_column" v }
        "line_value" with ⟨r, s2⟩
    rw [hgl] at hrun
    cases r with
    | error e => exact absurd (congrArg Prod.fst hrun) (by simp)
    | ok lv =>
      dsimp only at hrun
      have hs1 := congrArg Prod.snd hrun
      dsimp only at hs1
      subst hs1
      have hlv : dictFind? s2.cachedComputed "line_value" = some lv :=
        getItem_result_cached H _ "line_value" lv s2 (by decide) hgl
      have hcol : dictFind? s2.cachedComputed "start_column" = some v := by
        have h0 : dictFind?
            (dictSet s.cachedComputed "start_column" v) "start_column"
              = some v := dictFind?_dictSet_self _ _ _
        have h1 := getItem_preserves H "start_column" v
          { s with cachedComputed := dictSet s.cachedComputed "start_column" v }
          "line_value" h0
        rw [hgl] at h1
        exact h1
      refine ⟨lv, ?_, ?_, ?_, ?_, ?_, ?_⟩
      · rw [dictFind?_dictPop_ne _ "query" "line_value" (by decide),
            dictFind?_dictSet_ne _ "start_codepoint" "line_value" _ (by decide)]
        exact hlv
      · rw [dictFind?_dictPop_ne _ "query" "start_column" (by decide),
            dictFind?_dictSet_ne _ "start_codepoint" "start_column" _ (by decide)]
        exact hcol
      · rw [dictFind?_dictPop_ne _ "query" "start_codepoint" (by decide)]
        exact dictFind?_dictSet_self _ _ _
      · exact dictFind?_dictPop_self _ _
      · refine getItem_cached H _ "start_codepoint" _ ?_
        rw [dictFind?_dictPop_ne _ "query" "start_codepoint" (by decide)]
        exact dictFind?_dictSet_self _ _ _
      · refine getItem_cached H _ "start_column" _ ?_
        rw [dictFind?_dictPop_ne _ "query" "start_column" (by decide),
            dictFind?_dictSet_ne _ "start_codepoint" "start_column" _ (by decide)]
        exact hcol
  · intro s s1 v hrun
    have hset : setItem H s "start_codepoint" v
        = setCompletionStartCodepoint H s v := by
      with_unfolding_all rfl
    rw [hset] at hrun
    rw [setCompletionStartCodepoint] at hrun
    dsimp only at hrun
    rcases hgl : getItem H
        { s with cachedComputed := dictSet s.cachedComputed "start_codepoint" v }
        "line_value" with ⟨r, s2⟩
    rw [hgl] at hrun
    cases r with
    | error e => exact absurd (congrArg Prod.fst hrun) (by simp)
    | ok lv =>
      dsimp only at hrun
      have hs1 := congrArg Prod.snd hrun
      dsimp only at hs1
      subst hs1
      have hlv : dictFind? s2.cachedComputed "line_value" = some lv :=
        getItem_result_cached H _ "line_value" lv s2 (by decide) hgl
      have hcp : dictFind? s2.cachedComputed "start_codepoint" = some v := by
        have h0 : dictFind?
            (dictSet s.cachedComputed "start_codepoint" v) "start_codepoint"
              = some v := dictFind?_dictSet_self _ _ _
        have h1 := getItem_preserves H "start_codepoint" v
          { s with cachedComputed := dictSet s.cachedComputed "start_codepoint" v }
          "line_value" h0
        rw [hgl] at h1
        exact h1
      refine ⟨lv, ?_, ?_, ?_, ?_, ?_, ?_⟩
      · rw [dictFind?_dictPop_ne _ "query" "line_value" (by decide),
            dictFind?_dictSet_ne _ "start_column" "line_value" _ (by decide)]
        exact hlv
      · rw [dictFind?_dictPop_ne _ "query" "start_codepoint" (by decide),
            dictFind?_dictSet_ne _ "start_column" "start_codepoint" _ (by decide)]
        exact hcp
      · rw [dictFind?_dictPop_ne _ "query" "start_column" (by decide)]
        exact dictFind?_dictSet_self _ _ _
      · exact dictFind?_dictPop_self _ _
      · refine getItem_cached H _ "start_column" _ ?_
        rw [dictFind?_dictPop_ne _ "query" "start_column" (by decide)]
        exact dictFind?_dictSet_self _ _ _
      · refine getItem_cached H _ "start_codepoint" _ ?_
        rw [dictFind?_dictPop_ne _ "query" "start_codepoint" (by decide),
            dictFind?_dictSet_ne _ "start_column" "start_codepoint" _ (by decide)]
        exact hcp

/-- Witness for C1 at the P5 view: both setters applied at concrete
overrides, with the hypothesis discharged by evaluation. -/
theorem claim_C1_witness :
    (∃ lv, dictFind?
        ((setItem asciiHelpers exView "start_column" (.int 3)).2).cachedComputed
        "line_value" = some lv ∧
      dictFind?
        ((setItem asciiHelpers exView "start_column" (.int 3)).2).cachedComputed
        "start_column" = some (.int 3) ∧
      dictFind?
        ((setItem asciiHelpers exView "start_column" (.int 3)).2).cachedComputed
        "start_codepoint"
        = some (.int (asciiHelpers.byteOffsetToCodepointOffset lv (.int 3))) ∧
      dictFind?
        ((setItem asciiHelpers exView "start_column" (.int 3)).2).cachedComputed
        "query" = none ∧
      getItem asciiHelpers
        ((setItem asciiHelpers exView "start_column" (.int 3)).2)
        "start_codepoint"
        = (.ok (.int (asciiHelpers.byteOffsetToCodepointOffset lv (.int 3))),
          (setItem asciiHelpers exView "start_column" (.int 3)).2) ∧
      getItem asciiHelpers
        ((setItem asciiHelpers exView "start_column" (.int 3)).2)
        "start_column"
        = (.ok (.int 3),
          (setItem asciiHelpers exView "start_column" (.int 3)).2)) ∧
    (∃ lv, dictFind?
        ((setItem asciiHelpers exView "start_codepoint" (.int 4)).2).cachedComputed
        "line_value" = some lv ∧
      dictFind?
        ((setItem asciiHelpers exView "start_codepoint" (.int 4)).2).cachedComputed
        "start_codepoint" = some (.int 4) ∧
      dictFind?
        ((setItem asciiHelpers exView "start_codepoint" (.int 4)).2).cachedComputed
        "start_column"
        = some (.int (asciiHelpers.codepointOffsetToByteOffset lv (.int 4))) ∧
      dictFind?
        ((setItem asciiHelpers exView "start_codepoint" (.int 4)).2).cachedComputed
        "query" = none ∧
      getItem asciiHelpers
        ((setItem asciiHelpers exView "start_codepoint" (.int 4)).2)
        "start_column"
        = (.ok (.int (asciiHelpers.codepointOffsetToByteOffset lv (.int 4))),
          (setItem asciiHelpers exView "start_codepoint" (.int 4)).2) ∧
      getItem asciiHelpers
        ((setItem asciiHelpers exView "start_codepoint" (.int 4)).2)
        "start_codepoint"
        = (.ok (.int 4),
          (setItem asciiHelpers exView "start_codepoint" (.int 4)).2)) :=
  ⟨(claim_C1 asciiHelpers).1 exView
      ((setItem asciiHelpers exView "start_column" (.int 3)).2) (.int 3)
      (by with_unfolding_all rfl),
   (claim_C1 asciiHelpers).2 exView
      ((setItem asciiHelpers exView "start_codepoint" (.int 4)).2) (.int 4)
      (by with_unfolding_all rfl)⟩

/-- C2: on a fresh view whose request carries a line resolving to `line`,
cursor byte column `cn` and a single declared filetype `ft`, the
un-overridden `get("start_codepoint")` equals
`StartOfLongestIdentifierEndingAtIndex(line, ByteOffsetToCodepointOffset(line, cn) - 1, ft) + 1`
(the byte cursor converted to a codepoint, scanned with a 0-based index,
re-adding 1), and `get("start_column")` equals
`CodepointOffsetToByteOffset(line, that codepoint result)` against the same
line. -/
theorem claim_C2 (H : Helpers) (contents : PyVal) (ln cn : Int) (ft : PyVal)
    (line : String)
    (hline : pyGetIdx (H.splitLines contents) (ln - 1) = .ok line) :
    (getItem H (RequestWrap.init (stdRequest ln cn contents (.list [ft])))
        "start_codepoint").1
      = .ok (.int (H.startOfLongestIdentifierEndingAtIndex
          (H.toUnicode (.str line))
          (H.byteOffsetToCodepointOffset (.str line) (.int cn) - 1) ft + 1)) ∧
    (getItem H (RequestWrap.init (stdRequest ln cn contents (.list [ft])))
        "start_column").1
      = .ok (.int (H.codepointOffsetToByteOffset
          (.str (H.toUnicode (.str line)))
          (.int (H.startOfLongestIdentifierEndingAtIndex
            (H.toUnicode (.str line))
            (H.byteOffsetToCodepointOffset (.str line) (.int cn) - 1) ft
              + 1)))) := by
  constructor
  · simp [getItem, getItemF, runComputed, currentLine,
          getCompletionStartCodepointG, firstFiletypeG, filetypesG,
          CompletionStartCodepoint, dictFind?, pySubscript, pyGetIdx_cons_zero,
          computedKeys, RequestWrap.init, stdRequest, hline, dictSet]
  · simp [getItem, getItemF, runComputed, currentLine,
          getCompletionStartColumnG, firstFiletypeG, filetypesG,
          CompletionStartColumn, CompletionStartCodepoint, dictFind?,
          pySubscript, pyGetIdx_cons_zero, computedKeys, RequestWrap.init,
          stdRequest, hline, dictSet]

/-- Witness for C2 at the P5 scenario: line `"foo.bar"`, cursor byte column
8, filetype `"python"`; with the ASCII helpers the start position is
codepoint 5 and byte column 5. -/
theorem claim_C2_witness :
    (getItem asciiHelpers
        (RequestWrap.init
          (stdRequest 1 8 (.str "foo.bar") (.list [.str "python"])))
        "start_codepoint").1
      = .ok (.int (asciiHelpers.startOfLongestIdentifierEndingAtIndex
          (asciiHelpers.toUnicode (.str "foo.bar"))
          (asciiHelpers.byteOffsetToCodepointOffset (.str "foo.bar") (.int 8)
            - 1) (.str "python") + 1)) ∧
    (getItem asciiHelpers
        (RequestWrap.init
          (stdRequest 1 8 (.str "foo.bar") (.list [.str "python"])))
        "start_column").1
      = .ok (.int (asciiHelpers.codepointOffsetToByteOffset
          (.str (asciiHelpers.toUnicode (.str "foo.bar")))
          (.int (asciiHelpers.startOfLongestIdentifierEndingAtIndex
            (asciiHelpers.toUnicode (.str "foo.bar"))
            (asciiHelpers.byteOffsetToCodepointOffset (.str "foo.bar") (.int 8)
              - 1) (.str "python") + 1)))) :=
  claim_C2 asciiHelpers (.str "foo.bar") 1 8 (.str "python") "foo.bar"
    (by with_unfolding_all rfl)

/-- Counterexample for C3: the claim asserts the empty string whenever the
cached pair has `start_codepoint >= column_codepoint`, including
`start_codepoint` 0 or negative after an override. On the P5 view
(line `"foo.bar"`, `column_codepoint` 8), overriding `start_codepoint` to 0
makes `_Query` slice `line[-1:7]`, which is `"r"`, not `""`; and on the same
line with `column_codepoint` 0, overriding `start_codepoint` to 1 (an
inverted pair, 1 >= 0) makes it slice `line[0:-1]`, which is `"foo.ba"`,
not `""` — Python's negative slice bounds count from the end of the line. -/
theorem claim_C3_counterexample :
    ((setItem asciiHelpers exView "start_codepoint" (.int 0)).1 = .ok () ∧
     (getItem asciiHelpers
        ((setItem asciiHelpers exView "start_codepoint" (.int 0)).2)
        "query").1 = .ok (.str "r") ∧
     PyVal.str "r" ≠ PyVal.str "") ∧
    ((setItem asciiHelpers exViewCol0 "start_codepoint" (.int 1)).1
        = .ok () ∧
     (getItem asciiHelpers
        ((setItem asciiHelpers exViewCol0 "start_codepoint" (.int 1)).2)
        "query").1 = .ok (.str "foo.ba") ∧
     PyVal.str "foo.ba" ≠ PyVal.str "") := by
  refine ⟨⟨?_, ?_, ?_⟩, ⟨?_, ?_, ?_⟩⟩
  · with_unfolding_all rfl
  · with_unfolding_all rfl
  · simp
  · with_unfolding_all rfl
  · with_unfolding_all rfl
  · simp

/-- C3 as amended: `get("query")` computes the Python slice
`line_value[start_codepoint - 1 : column_codepoint - 1]` of the cached
values. When both cached offsets are at least 1, an empty or inverted range
(`column_codepoint <= start_codepoint`) yields the empty string, and an
in-range pair yields the substring from 0-based `start_codepoint - 1` up to
(excluding) `column_codepoint - 1`; but a `start_codepoint` of 0 or below
(possible only through an override) makes the lower slice bound negative,
which wraps to count from the end of the line instead of yielding the empty
string. -/
theorem claim_C3_amended (H : Helpers) (s : RequestWrap) (line : String)
    (a b : Int)
    (hlv : dictFind? s.cachedComputed "line_value" = some (.str line))
    (hsc : dictFind? s.cachedComputed "start_codepoint" = some (.int a))
    (hcc : dictFind? s.cachedComputed "column_codepoint" = some (.int b))
    (hq : dictFind? s.cachedComputed "query" = none) :
    (getItem H s "query").1 = .ok (.str (pySlice line (a - 1) (b - 1))) ∧
    (1 ≤ b → b ≤ a → pySlice line (a - 1) (b - 1) = "") ∧
    (1 ≤ a → a ≤ b → b ≤ (line.length : Int) + 1 →
      pySlice line (a - 1) (b - 1)
        = String.mk ((line.data.take (b - 1).toNat).drop (a - 1).toNat)) := by
  refine ⟨?_, ?_, ?_⟩
  · simp [getItem, getItemF, runComputed, queryG, computedKeys,
          hlv, hsc, hcc, hq]
  · intro hb hba
    unfold pySlice pySliceBound
    rw [if_neg (by omega), if_neg (by omega)]
    dsimp only
    have hnil : (line.data.take (min (b - 1).toNat line.length)).drop
        (min (a - 1).toNat line.length) = [] := by
      apply List.drop_eq_nil_of_le
      rw [List.length_take]
      have hlen : line.data.length = line.length := rfl
      omega
    rw [hnil]
  · intro ha hab hble
    unfold pySlice pySliceBound
    rw [if_neg (by omega), if_neg (by omega)]
    dsimp only
    have hhi : min (b - 1).toNat line.length = (b - 1).toNat :=
      min_eq_left (by omega)
    have hlo : min (a - 1).toNat line.length = (a - 1).toNat :=
      min_eq_left (by omega)
    rw [hhi, hlo]

/-- Witness for C3's amended theorem at a view with cached `line_value`
`"xy"`, `start_codepoint` 1 and `column_codepoint` 3. -/
theorem claim_C3_amended_witness :
    (getItem asciiHelpers exViewCachedQuery "query").1
      = .ok (.str (pySlice "xy" (1 - 1) (3 - 1))) ∧
    ((1 : Int) ≤ 3 → (3 : Int) ≤ 1 → pySlice "xy" (1 - 1) (3 - 1) = "") ∧
    ((1 : Int) ≤ 1 → (1 : Int) ≤ 3 →
      (3 : Int) ≤ (("xy" : String).length : Int) + 1 →
      pySlice "xy" (1 - 1) (3 - 1)
        = String.mk ((("xy" : String).data.take ((3 : Int) - 1).toNat).drop
            ((1 : Int) - 1).toNat)) :=
  claim_C3_amended asciiHelpers exViewCachedQuery "xy" 1 3 rfl rfl rfl rfl

/-- Counterexample for C4: the claim asserts that a failure raised inside a
derived getter — its own example is the request's `filepath` absent from
`file_data` — propagates out of `get_or` rather than being converted to the
default. On a view whose `file_data` lacks the `filepath` entry, resolving
`line_value` raises `KeyError` from inside `_CurrentLine`, yet
`get_or("line_value", default)` returns the default: the source's
`except KeyError` catches getter-internal `KeyError`s too. -/
theorem claim_C4_counterexample :
    (getItem asciiHelpers exViewNoFile "line_value").1
      = .error (.keyError "/f") ∧
    (getOr asciiHelpers exViewNoFile "line_value" (.str "default")).1
      = .ok (.str "default") := by
  constructor
  · with_unfolding_all rfl
  · with_unfolding_all rfl

/-- C4 as amended: `get_or(key, default)` returns what `get(key)` returns
when it succeeds, returns the default whenever `get(key)` fails with
`KeyError` — whether the key is simply absent or the `KeyError` was raised
inside a derived getter (e.g. `filepath` absent from `file_data`) — and
re-raises only non-`KeyError` failures (such as `LineOutOfRange`). -/
theorem claim_C4_amended (H : Helpers) (s : RequestWrap) (k : String)
    (d : PyVal) :
    (∀ (v : PyVal) (s1 : RequestWrap),
      getItem H s k = (.ok v, s1) → getOr H s k d = (.ok v, s1)) ∧
    (∀ (j : String) (s1 : RequestWrap),
      getItem H s k = (.error (.keyError j), s1) →
      getOr H s k d = (.ok d, s1)) ∧
    (∀ (e : PyErr) (s1 : RequestWrap),
      getItem H s k = (.error e, s1) → (∀ j, e ≠ .keyError j) →
      getOr H s k d = (.error e, s1)) := by
  refine ⟨?_, ?_, ?_⟩
  · intro v s1 h
    unfold getOr
    rw [h]
  · intro j s1 h
    unfold getOr
    rw [h]
  · intro e s1 h hne
    unfold getOr
    rw [h]
    cases e with
    | keyError j => exact absurd rfl (hne j)
    | indexError => rfl
    | typeError => rfl
    | valueError j => rfl
    | outOfFuel => rfl

/-- Witness for C4's amended theorem: a getter-internal `KeyError` becomes
the default, and a line-out-of-range `IndexError` propagates. -/
theorem claim_C4_amended_witness :
    getOr asciiHelpers exViewNoFile "line_value" (.str "d")
      = (.ok (.str "d"),
        (getItem asciiHelpers exViewNoFile "line_value").2) ∧
    getOr asciiHelpers
        (RequestWrap.init (stdRequest 9 1 (.str "foo.bar") (.list [])))
        "line_value" (.str "d")
      = (.error .indexError,
        (getItem asciiHelpers
          (RequestWrap.init (stdRequest 9 1 (.str "foo.bar") (.list [])))
          "line_value").2) :=
  ⟨(claim_C4_amended asciiHelpers exViewNoFile "line_value" (.str "d")).2.1
      "/f" _ (by with_unfolding_all rfl),
   (claim_C4_amended asciiHelpers
      (RequestWrap.init (stdRequest 9 1 (.str "foo.bar") (.list [])))
      "line_value" (.str "d")).2.2
      .indexError _ (by with_unfolding_all rfl)
      (fun j h => PyErr.noConfusion h)⟩

/-- C6: `get("line_value")` returns the element at index `line_num - 1` of
`SplitLines` of the contents recorded for the request's `filepath` in
`file_data`, and fails with `LineOutOfRange` (Python `IndexError`) whenever
`line_num` exceeds the file's line count. -/
theorem claim_C6 (H : Helpers) (contents ftsv : PyVal) (ln cn : Int) :
    (∀ line : String, 1 ≤ ln →
      (H.splitLines contents).get? (ln - 1).toNat = some line →
      (getItem H (RequestWrap.init (stdRequest ln cn contents ftsv))
          "line_value").1 = .ok (.str line)) ∧
    (((H.splitLines contents).length : Int) < ln →
      (getItem H (RequestWrap.init (stdRequest ln cn contents ftsv))
          "line_value").1 = .error .indexError) := by
  constructor
  · intro line h1 h2
    have hline : pyGetIdx (H.splitLines contents) (ln - 1) = .ok line :=
      pyGetIdx_nonneg _ _ _ (by omega) h2
    simp [getItem, getItemF, runComputed, currentLine, dictFind?, pySubscript,
          computedKeys, RequestWrap.init, stdRequest, hline, dictSet]
  · intro h1
    have hline : pyGetIdx (H.splitLines contents) (ln - 1)
        = .error .indexError := pyGetIdx_oobHigh _ _ (by omega)
    simp [getItem, getItemF, runComputed, currentLine, dictFind?, pySubscript,
          computedKeys, RequestWrap.init, stdRequest, hline, dictSet]

/-- Witness for C6 on the two-line file `"a\nb"`: line 2 resolves to `"b"`,
and line 3 fails with the out-of-range error. -/
theorem claim_C6_witness :
    (getItem asciiHelpers
        (RequestWrap.init (stdRequest 2 1 (.str "a\nb") (.list [])))
        "line_value").1 = .ok (.str "b") ∧
    (getItem asciiHelpers
        (RequestWrap.init (stdRequest 3 1 (.str "a\nb") (.list [])))
        "line_value").1 = .error .indexError :=
  ⟨(claim_C6 asciiHelpers (.str "a\nb") (.list []) 2 1).1 "b" (by decide)
      (by with_unfolding_all rfl),
   (claim_C6 asciiHelpers (.str "a\nb") (.list []) 3 1).2
      (by with_unfolding_all decide)⟩

/-- C7: `get("first_filetype")` returns the first declared filetype when
the list is non-empty, and returns the explicit no-value result `None` —
propagating no missing-key or out-of-range failure — when the `filepath`
entry, its `filetypes` list, or the list's first element is absent. -/
theorem claim_C7 (H : Helpers) :
    (∀ (ln cn : Int) (contents f : PyVal) (rest : List PyVal),
      (getItem H
          (RequestWrap.init (stdRequest ln cn contents (.list (f :: rest))))
          "first_filetype").1 = .ok f) ∧
    (∀ (ln cn : Int) (contents : PyVal),
      (getItem H (RequestWrap.init (stdRequest ln cn contents (.list [])))
          "first_filetype").1 = .ok .pynone) ∧
    (∀ (ln cn : Int) (contents : PyVal),
      (getItem H (RequestWrap.init
          [("filepath", .str "/f"), ("line_num", .int ln),
           ("column_num", .int cn),
           ("file_data", .dict [("/f", .dict [("contents", contents)])])])
          "first_filetype").1 = .ok .pynone) ∧
    (∀ (ln cn : Int),
      (getItem H (RequestWrap.init
          [("filepath", .str "/f"), ("line_num", .int ln),
           ("column_num", .int cn), ("file_data", .dict [])])
          "first_filetype").1 = .ok .pynone) := by
  refine ⟨?_, ?_, ?_, ?_⟩
  · intro ln cn contents f rest
    with_unfolding_all rfl
  · intro ln cn contents
    with_unfolding_all rfl
  · intro ln cn contents
    with_unfolding_all rfl
  · intro ln cn
    with_unfolding_all rfl

theorem setItem_readOnly (H : Helpers) (s : RequestWrap) (k : String)
    (v : PyVal) (h1 : k ≠ "start_column") (h2 : k ≠ "start_codepoint") :
    setItem H s k v = (.error (.valueError k), s) := by
  by_cases ha : k ∈ computedKeys
  · unfold setItem
    rw [if_pos ha, if_neg h2, if_neg h1]
  · unfold setItem
    rw [if_neg ha]

/-- C8: `set(k, v)` fails with `ReadOnlyFieldError` (Python `ValueError`)
for every key other than the two fields with setters — in particular for
every setterless derived field (`line_value`, `query`, `line_bytes`,
`column_codepoint`, `filetypes`, `first_filetype`) and every raw-only
field — leaving the view unchanged; a `set` can only succeed for
`start_column` or `start_codepoint`. -/
theorem claim_C8 (H : Helpers) (s : RequestWrap) (k : String) (v : PyVal) :
    (k ≠ "start_column" → k ≠ "start_codepoint" →
      setItem H s k v = (.error (.valueError k), s)) ∧
    (∀ s1 : RequestWrap, setItem H s k v = (.ok (), s1) →
      k = "start_column" ∨ k = "start_codepoint") := by
  constructor
  · exact setItem_readOnly H s k v
  · intro s1 h
    by_cases h1 : k = "start_column"
    · exact Or.inl h1
    · by_cases h2 : k = "start_codepoint"
      · exact Or.inr h2
      · rw [setItem_readOnly H s k v h1 h2] at h
        exact absurd (congrArg Prod.fst h) (by simp)

/-- Witness for C8: writing the setterless derived field `line_value` on
the P5 view fails read-only. -/
theorem claim_C8_witness :
    setItem asciiHelpers exView "line_value" (.int 1)
      = (.error (.valueError "line_value"), exView) :=
  (claim_C8 asciiHelpers exView "line_value" (.int 1)).1 (by decide)
    (by decide)

/-- C9: `has(k)` is true exactly when `k` names a registered derived field
or occurs in the raw request; `containsKey` is a pure boolean function of
the view state — mirroring `__contains__`, which resolves nothing and
writes nothing, it leaves cache and request untouched by construction. -/
theorem claim_C9 (s : RequestWrap) (k : String) :
    containsKey s k = true ↔
      k ∈ computedKeys ∨ ∃ v, dictFind? s.request k = some v := by
  simp [containsKey, Option.isSome_iff_exists]

/-- Witness for C9 at the P5 view and the derived key `line_value`. -/
theorem claim_C9_witness :
    containsKey exView "line_value" = true ↔
      "line_value" ∈ computedKeys ∨
        ∃ v, dictFind? exView.request "line_value" = some v :=
  claim_C9 exView "line_value"

/-- C10: a `line_num` of 0, or negative with magnitude small enough that
`line_num - 1` remains a valid negative Python index, does not make
`get("line_value")` fail: the index `line_num - 1` is applied directly to
the split line list, which accepts negative indices, so the line is counted
from the end of the file; in particular `line_num = 0` yields the file's
last line. -/
theorem claim_C10 (H : Helpers) (contents ftsv : PyVal) (ln cn : Int) :
    (∀ line : String, ln ≤ 0 →
      0 ≤ ln - 1 + ((H.splitLines contents).length : Int) →
      (H.splitLines contents).get?
          (ln - 1 + ((H.splitLines contents).length : Int)).toNat
        = some line →
      (getItem H (RequestWrap.init (stdRequest ln cn contents ftsv))
          "line_value").1 = .ok (.str line)) ∧
    (∀ lastLine : String, ln = 0 →
      (H.splitLines contents).get? ((H.splitLines contents).length - 1)
        = some lastLine →
      (getItem H (RequestWrap.init (stdRequest ln cn contents ftsv))
          "line_value").1 = .ok (.str lastLine)) := by
  constructor
  · intro line h0 h1 h2
    have hline : pyGetIdx (H.splitLines contents) (ln - 1) = .ok line :=
      pyGetIdx_neg _ _ _ (by omega) (by omega) (by exact h2)
    simp [getItem, getItemF, runComputed, currentLine, dictFind?, pySubscript,
          computedKeys, RequestWrap.init, stdRequest, hline, dictSet]
  · intro lastLine h0 h2
    subst h0
    have hlt : 0 < (H.splitLines contents).length := by
      rcases List.get?_eq_some.1 h2 with ⟨hx, _⟩
      omega
    have heq : ((-1 : Int) + ((H.splitLines contents).length : Int)).toNat
        = (H.splitLines contents).length - 1 := by omega
    have hline : pyGetIdx (H.splitLines contents) (-1 : Int)
        = .ok lastLine := by
      refine pyGetIdx_neg _ _ _ (by omega) (by omega) ?_
      rw [heq]
      exact h2
    simp [getItem, getItemF, runComputed, currentLine, dictFind?, pySubscript,
          computedKeys, RequestWrap.init, stdRequest, hline, dictSet]

/-- Witness for C10 on the two-line file `"a\nb"`: `line_num = 0` yields the
last line `"b"` instead of failing. -/
theorem claim_C10_witness :
    (getItem asciiHelpers
        (RequestWrap.init (stdRequest 0 1 (.str "a\nb") (.list [])))
        "line_value").1 = .ok (.str "b") :=
  (claim_C10 asciiHelpers (.str "a\nb") (.list []) 0 1).2 "b" rfl
    (by with_unfolding_all rfl)

end RequestWrapModel
